import Mathlib

/-
Verification development for the CRM proxy service (apo_wrapper.py).

The service is a thin HTTP passthrough: each endpoint validates a request,
builds one outbound call to the remote CRM API, and reshapes the remote
response.  We embed the handlers as pure functions.  The nondeterminism of
the network is captured by a `RemoteOutcome` argument: what the single
outbound call of the handler would observe (an HTTP response, or a raised
transport exception).  Each handler returns the list of outbound calls it
attempted (so "no outbound call is made" is expressible) together with a
`PyResult`, which models normal return, a raised HTTPException, or any
other raised exception.
-/

set_option autoImplicit false

/-- Json values, as needed to model the dict/list/str/bool/None payloads the
service manipulates. -/
inductive Json where
  | null : Json
  | bool : Bool → Json
  | num : Int → Json
  | str : String → Json
  | arr : List Json → Json
  | obj : List (String × Json) → Json

mutual

/-- Decidable equality on Json values. -/
def Json.decEq : (a b : Json) → Decidable (a = b)
  | Json.null, Json.null => isTrue rfl
  | Json.null, Json.bool _ => isFalse (fun h => Json.noConfusion h)
  | Json.null, Json.num _ => isFalse (fun h => Json.noConfusion h)
  | Json.null, Json.str _ => isFalse (fun h => Json.noConfusion h)
  | Json.null, Json.arr _ => isFalse (fun h => Json.noConfusion h)
  | Json.null, Json.obj _ => isFalse (fun h => Json.noConfusion h)
  | Json.bool _, Json.null => isFalse (fun h => Json.noConfusion h)
  | Json.bool a, Json.bool b =>
    if h : a = b then isTrue (by rw [h]) else isFalse (fun he => h (Json.bool.inj he))
  | Json.bool _, Json.num _ => isFalse (fun h => Json.noConfusion h)
  | Json.bool _, Json.str _ => isFalse (fun h => Json.noConfusion h)
  | Json.bool _, Json.arr _ => isFalse (fun h => Json.noConfusion h)
  | Json.bool _, Json.obj _ => isFalse (fun h => Json.noConfusion h)
  | Json.num _, Json.null => isFalse (fun h => Json.noConfusion h)
  | Json.num _, Json.bool _ => isFalse (fun h => Json.noConfusion h)
  | Json.num a, Json.num b =>
    if h : a = b then isTrue (by rw [h]) else isFalse (fun he => h (Json.num.inj he))
  | Json.num _, Json.str _ => isFalse (fun h => Json.noConfusion h)
  | Json.num _, Json.arr _ => isFalse (fun h => Json.noConfusion h)
  | Json.num _, Json.obj _ => isFalse (fun h => Json.noConfusion h)
  | Json.str _, Json.null => isFalse (fun h => Json.noConfusion h)
  | Json.str _, Json.bool _ => isFalse (fun h => Json.noConfusion h)
  | Json.str _, Json.num _ => isFalse (fun h => Json.noConfusion h)
  | Json.str a, Json.str b =>
    if h : a = b then isTrue (by rw [h]) else isFalse (fun he => h (Json.str.inj he))
  | Json.str _, Json.arr _ => isFalse (fun h => Json.noConfusion h)
  | Json.str _, Json.obj _ => isFalse (fun h => Json.noConfusion h)
  | Json.arr _, Json.null => isFalse (fun h => Json.noConfusion h)
  | Json.arr _, Json.bool _ => isFalse (fun h => Json.noConfusion h)
  | Json.arr _, Json.num _ => isFalse (fun h => Json.noConfusion h)
  | Json.arr _, Json.str _ => isFalse (fun h => Json.noConfusion h)
  | Json.arr xs, Json.arr ys =>
    match Json.decEqList xs ys with
    | isTrue h => isTrue (by rw [h])
    | isFalse h => isFalse (fun he => h (Json.arr.inj he))
  | Json.arr _, Json.obj _ => isFalse (fun h => Json.noConfusion h)
  | Json.obj _, Json.null => isFalse (fun h => Json.noConfusion h)
  | Json.obj _, Json.bool _ => isFalse (fun h => Json.noConfusion h)
  | Json.obj _, Json.num _ => isFalse (fun h => Json.noConfusion h)
  | Json.obj _, Json.str _ => isFalse (fun h => Json.noConfusion h)
  | Json.obj _, Json.arr _ => isFalse (fun h => Json.noConfusion h)
  | Json.obj xs, Json.obj ys =>
    match Json.decEqFields xs ys with
    | isTrue h => isTrue (by rw [h])
    | isFalse h => isFalse (fun he => h (Json.obj.inj he))

/-- Decidable equality on Json arrays. -/
def Json.decEqList : (xs ys : List Json) → Decidable (xs = ys)
  | [], [] => isTrue rfl
  | [], _ :: _ => isFalse (fun h => List.noConfusion h)
  | _ :: _, [] => isFalse (fun h => List.noConfusion h)
  | x :: xs, y :: ys =>
    match Json.decEq x y with
    | isFalse h => isFalse (fun he => h (List.cons.inj he).1)
    | isTrue h1 =>
      match Json.decEqList xs ys with
      | isTrue h2 => isTrue (by rw [h1, h2])
      | isFalse h2 => isFalse (fun he => h2 (List.cons.inj he).2)

/-- Decidable equality on Json object field lists. -/
def Json.decEqFields : (xs ys : List (String × Json)) → Decidable (xs = ys)
  | [], [] => isTrue rfl
  | [], _ :: _ => isFalse (fun h => List.noConfusion h)
  | _ :: _, [] => isFalse (fun h => List.noConfusion h)
  | (k1, v1) :: xs, (k2, v2) :: ys =>
    if hk : k1 = k2 then
      match Json.decEq v1 v2 with
      | isTrue hv =>
        match Json.decEqFields xs ys with
        | isTrue ht => isTrue (by rw [hk, hv, ht])
        | isFalse ht => isFalse (fun he => ht (List.cons.inj he).2)
      | isFalse hv => isFalse (fun he => hv (congrArg Prod.snd (List.cons.inj he).1))
    else isFalse (fun he => hk (congrArg Prod.fst (List.cons.inj he).1))

end

instance : DecidableEq Json := Json.decEq

/-- Python truthiness of a Json value, as used by the source to drop empty
request fields and by the `or` fallback in the company resolution. -/
def jsonTruthy : Json → Bool
  | Json.null => false
  | Json.bool b => b
  | Json.num n => n != 0
  | Json.str s => s != ""
  | Json.arr xs => !xs.isEmpty
  | Json.obj fs => !fs.isEmpty

/-- Python `d.get(k, default)` on a Json value, total variant: returns the
default when the value is not an object.  Handlers themselves use explicit
matches so that `.get` on a non-dict raises, as in Python; this total
function is used in theorem statements. -/
def jgetD (j : Json) (k : String) (d : Json) : Json :=
  match j with
  | Json.obj fs => (fs.lookup k).getD d
  | _ => d

/-- Key lookup in a Json object, `none` when absent or not an object. -/
def jlookup (j : Json) (k : String) : Option Json :=
  match j with
  | Json.obj fs => fs.lookup k
  | _ => none

/-- Outcome of a Python handler body: normal return, a raised
`HTTPException status detail`, or any other raised exception. -/
inductive PyResult (α : Type) where
  | ok : α → PyResult α
  | httpExc : Nat → String → PyResult α
  | exc : String → PyResult α
  deriving DecidableEq

/-- Sequencing of Python statements: a raised exception propagates. -/
def PyResult.bind {α β : Type} : PyResult α → (α → PyResult β) → PyResult β
  | PyResult.ok a, f => f a
  | PyResult.httpExc s m, _ => PyResult.httpExc s m
  | PyResult.exc m, _ => PyResult.exc m

/-- The `try/except` wrapper shared by the create and update handlers:
`except HTTPException as e: raise e` re-raises HTTPExceptions unchanged, and
`except Exception as e: raise HTTPException(500, str(e))` turns any other
exception into a 500. -/
def handlerWrap {α : Type} : PyResult α → PyResult α
  | PyResult.exc m => PyResult.httpExc 500 m
  | r => r

/-- An HTTP response observed from the remote API: status code, raw body
text, and the result of parsing the body as JSON (`Except.error m` when
`response.json()` would raise with message `m`). -/
structure RemoteResponse where
  status : Nat
  text : String
  jsonBody : Except String Json

/-- What the one outbound call of a handler observes: a response, or a
raised transport exception (connection failure, timeout, ...). -/
inductive RemoteOutcome where
  | response : RemoteResponse → RemoteOutcome
  | exn : String → RemoteOutcome

/-- HTTP methods used by the service. -/
inductive Method where
  | GET : Method
  | POST : Method
  | PUT : Method
  deriving DecidableEq

/-- An outbound call attempted by a handler: method, endpoint path relative
to the remote base URL, query parameters (after the source's filtering) and
JSON body entries. -/
structure OutboundCall where
  method : Method
  endpoint : String
  queryParams : List (String × String)
  bodyData : List (String × String)
  deriving DecidableEq

/-- Response translation of `make_apollo_request`: a 2xx response has
`raise_for_status` pass and `response.json()` returned (a decode failure is
caught by `except Exception` and becomes a 500); a non-2xx response raises
`httpx.HTTPStatusError`, turned into `HTTPException(status, "Apollo API
error: " + response.text)`; any other exception becomes a 500 with the
exception's message. -/
def make_apollo_request (o : RemoteOutcome) : PyResult Json :=
  match o with
  | RemoteOutcome.exn m => PyResult.httpExc 500 m
  | RemoteOutcome.response r =>
    if 200 ≤ r.status ∧ r.status < 300 then
      match r.jsonBody with
      | Except.ok j => PyResult.ok j
      | Except.error m => PyResult.httpExc 500 m
    else
      PyResult.httpExc r.status ("Apollo API error: " ++ r.text)

/-- Pydantic model `CreateContactRequest`: email is a required string (the
schema does not constrain it to be non-empty); the optional fields default
to the empty string and become `none` when the caller passes null. -/
structure CreateContactRequest where
  email : String
  first_name : Option String
  last_name : Option String
  title : Option String
  company : Option String
  phone : Option String
  deriving DecidableEq

/-- Pydantic model `UpdateContactRequest`: contact_id required, the four
optional fields default to None. -/
structure UpdateContactRequest where
  contact_id : String
  email : Option String
  title : Option String
  phone : Option String
  linkedin_url : Option String
  deriving DecidableEq

/-- One key of an outbound parameter or body dict: kept only when the value
is truthy (present and non-empty), as in the source's dict comprehension
filter on query_params and the `if request.email:` style guards. -/
def qentry (k : String) (v : Option String) : List (String × String) :=
  match v with
  | some s => if s = "" then [] else [(k, s)]
  | none => []

/-- Query parameters built by `create_contact`: the field-to-parameter
renaming of company to organization_name and phone to direct_phone, with
empty values dropped. -/
def createQueryParams (req : CreateContactRequest) : List (String × String) :=
  qentry "email" (some req.email) ++
  qentry "first_name" req.first_name ++
  qentry "last_name" req.last_name ++
  qentry "title" req.title ++
  qentry "organization_name" req.company ++
  qentry "direct_phone" req.phone

/-- Body built by `update_contact`: only the truthy optional fields, with
phone renamed to direct_phone. -/
def updateBody (req : UpdateContactRequest) : List (String × String) :=
  qentry "email" req.email ++
  qentry "title" req.title ++
  qentry "direct_phone" req.phone ++
  qentry "linkedin_url" req.linkedin_url

/-- The company resolution of `create_contact`: the organization_name entry
of the contact or, when that is falsy, the name entry of the account entry
(defaulting to an empty dict).  The right operand of the `or` is only
evaluated when the left is falsy; `.get` on a non-dict account raises
(modelled as `exc`). -/
def companyOf (cfs : List (String × Json)) : PyResult Json :=
  let org := (cfs.lookup "organization_name").getD Json.null
  if jsonTruthy org then PyResult.ok org
  else
    match (cfs.lookup "account").getD (Json.obj []) with
    | Json.obj afs => PyResult.ok ((afs.lookup "name").getD Json.null)
    | _ => PyResult.exc "AttributeError"

/-- Response shaping of `create_contact` after a successful remote call:
contact is the data's contact entry, defaulting to an empty dict, then the
fields are extracted from it.  A `.get` on a non-dict raises, as in
Python. -/
def createResponse (data : Json) : PyResult Json :=
  match data with
  | Json.obj fs =>
    match (fs.lookup "contact").getD (Json.obj []) with
    | Json.obj cfs =>
      (companyOf cfs).bind fun comp =>
        PyResult.ok (Json.obj
          [("success", Json.bool true),
           ("contact_id", (cfs.lookup "id").getD Json.null),
           ("name", (cfs.lookup "name").getD Json.null),
           ("email", (cfs.lookup "email").getD Json.null),
           ("title", (cfs.lookup "title").getD Json.null),
           ("company", comp),
           ("raw_response", Json.obj cfs)])
    | _ => PyResult.exc "AttributeError"
  | _ => PyResult.exc "AttributeError"

/-- Handler POST /api/create-contact: build the filtered query parameters,
make the outbound call, shape the response; wrapped in the shared
try/except. -/
def create_contact (req : CreateContactRequest) (o : RemoteOutcome) :
    List OutboundCall × PyResult Json :=
  let call : OutboundCall :=
    ⟨Method.POST, "/contacts", createQueryParams req, []⟩
  ([call], handlerWrap ((make_apollo_request o).bind createResponse))

/-- Response shaping of `update_contact` after a successful remote call. -/
def updateResponse (body : List (String × String)) (data : Json) : PyResult Json :=
  match data with
  | Json.obj fs =>
    match (fs.lookup "contact").getD (Json.obj []) with
    | Json.obj cfs =>
      PyResult.ok (Json.obj
        [("success", Json.bool true),
         ("contact_id", (cfs.lookup "id").getD Json.null),
         ("updated_fields", Json.arr (body.map fun kv => Json.str kv.1)),
         ("raw_response", Json.obj cfs)])
    | _ => PyResult.exc "AttributeError"
  | _ => PyResult.exc "AttributeError"

/-- Handler PUT /api/update-contact: build the body from the truthy optional
fields, reject with a 400 when it is empty (before any outbound call), else
call the remote contact resource and shape the response. -/
def update_contact (req : UpdateContactRequest) (o : RemoteOutcome) :
    List OutboundCall × PyResult Json :=
  let body := updateBody req
  if body.isEmpty then
    ([], PyResult.httpExc 400 "No fields to update")
  else
    let call : OutboundCall :=
      ⟨Method.PUT, "/contacts/" ++ req.contact_id, [], body⟩
    ([call], handlerWrap ((make_apollo_request o).bind (updateResponse body)))

/-- The "error" result shape of the status handler's `except` clause. -/
def statusError (m : String) : Json :=
  Json.obj [("apollo_status", Json.str "error"), ("error", Json.str m)]

/-- Handler GET /api/status: one call to the remote health endpoint; a 200
response reports "connected" with the payload's is_logged_in flag, a non-200
reports "error" with the status code, and any exception inside the try
(transport failure, body decode failure, `.get` on a non-dict body) is
caught and folded into the `statusError` shape — never re-raised. -/
def check_status (o : RemoteOutcome) : List OutboundCall × PyResult Json :=
  let call : OutboundCall := ⟨Method.GET, "/auth/health", [], []⟩
  match o with
  | RemoteOutcome.exn m => ([call], PyResult.ok (statusError m))
  | RemoteOutcome.response r =>
    if r.status = 200 then
      match r.jsonBody with
      | Except.error m => ([call], PyResult.ok (statusError m))
      | Except.ok j =>
        match j with
        | Json.obj fs =>
          ([call], PyResult.ok (Json.obj
            [("apollo_status", Json.str "connected"),
             ("status_code", Json.num (r.status : Int)),
             ("is_logged_in", (fs.lookup "is_logged_in").getD (Json.bool false))]))
        | _ => ([call], PyResult.ok (statusError "AttributeError"))
    else
      ([call], PyResult.ok (Json.obj
        [("apollo_status", Json.str "error"),
         ("status_code", Json.num (r.status : Int)),
         ("is_logged_in", Json.bool false)]))

/-- Pydantic parsing of one optional string field: absent gives the model's
default, null gives None, a string gives itself, any other type is a
validation error. -/
def parseOptStr (fs : List (String × Json)) (k : String) (d : Option String) :
    Except String (Option String) :=
  match fs.lookup k with
  | none => Except.ok d
  | some Json.null => Except.ok none
  | some (Json.str s) => Except.ok (some s)
  | some _ => Except.error "validation error"

/-- Pydantic validation `CreateContactRequest(**params)`: email must be
present as a string; optional fields default to the empty string. -/
def parseCreateContactRequest (j : Json) : Except String CreateContactRequest :=
  match j with
  | Json.obj fs =>
    match fs.lookup "email" with
    | some (Json.str em) =>
      (parseOptStr fs "first_name" (some "")).bind fun fn =>
      (parseOptStr fs "last_name" (some "")).bind fun ln =>
      (parseOptStr fs "title" (some "")).bind fun ti =>
      (parseOptStr fs "company" (some "")).bind fun co =>
      (parseOptStr fs "phone" (some "")).bind fun ph =>
      Except.ok ⟨em, fn, ln, ti, co, ph⟩
    | _ => Except.error "validation error"
  | _ => Except.error "validation error"

/-- Pydantic validation `UpdateContactRequest(**params)`: contact_id must be
present as a string; optional fields default to None. -/
def parseUpdateContactRequest (j : Json) : Except String UpdateContactRequest :=
  match j with
  | Json.obj fs =>
    match fs.lookup "contact_id" with
    | some (Json.str cid) =>
      (parseOptStr fs "email" none).bind fun em =>
      (parseOptStr fs "title" none).bind fun ti =>
      (parseOptStr fs "phone" none).bind fun ph =>
      (parseOptStr fs "linkedin_url" none).bind fun lu =>
      Except.ok ⟨cid, em, ti, ph, lu⟩
    | _ => Except.error "validation error"
  | _ => Except.error "validation error"

/-- Handler POST /webhook/n8n: dispatch on `data.get("action")`, building
the typed request from the params entry, defaulting to an empty dict (a
validation failure
propagates as an uncaught exception, with no outbound call); an unknown or
missing action returns the descriptive payload, with no outbound call. -/
def n8n_webhook (data : List (String × Json)) (o : RemoteOutcome) :
    List OutboundCall × PyResult Json :=
  let action := (data.lookup "action").getD Json.null
  if action = Json.str "create_contact" then
    match parseCreateContactRequest ((data.lookup "params").getD (Json.obj [])) with
    | Except.ok req => create_contact req o
    | Except.error m => ([], PyResult.exc m)
  else if action = Json.str "update_contact" then
    match parseUpdateContactRequest ((data.lookup "params").getD (Json.obj [])) with
    | Except.ok req => update_contact req o
    | Except.error m => ([], PyResult.exc m)
  else if action = Json.str "status" then
    check_status o
  else
    ([], PyResult.ok (Json.obj
      [("error", Json.str "Unknown action"),
       ("available", Json.arr
         [Json.str "create_contact", Json.str "update_contact", Json.str "status"])]))

/-- Normalization of one optional field: an empty string becomes None. -/
def norm1 : Option String → Option String
  | some s => if s = "" then none else some s
  | none => none

/-- An update request with every empty-string optional field replaced by an
absent one. -/
def normUpdate (req : UpdateContactRequest) : UpdateContactRequest :=
  ⟨req.contact_id, norm1 req.email, norm1 req.title, norm1 req.phone,
   norm1 req.linkedin_url⟩

/-- `hasSubstr s sub` holds when `sub` occurs contiguously inside `s`. -/
def hasSubstr (s sub : String) : Prop :=
  ∃ p q, s = p ++ sub ++ q

/-- Every entry produced by `qentry k v` has key `k`. -/
theorem mem_qentry_key {k : String} {v : Option String} {p : String × String}
    (hp : p ∈ qentry k v) : p.1 = k := by
  cases v with
  | none => simp [qentry] at hp
  | some s =>
    by_cases h : s = ""
    · simp [qentry, h] at hp
    · simp [qentry, h] at hp
      rw [hp]

/-- Dropping one field entry is unchanged by normalizing an empty string to
an absent value. -/
theorem qentry_norm1 (k : String) (v : Option String) :
    qentry k (norm1 v) = qentry k v := by
  cases v with
  | none => rfl
  | some s => by_cases h : s = "" <;> simp [norm1, qentry, h]

/-- The except wrapper returns ok exactly when the body returned ok. -/
theorem handlerWrap_ok {α : Type} {r : PyResult α} {a : α}
    (h : handlerWrap r = PyResult.ok a) : r = PyResult.ok a := by
  cases r with
  | ok b => exact h
  | httpExc s m => exact h
  | exc m => simp [handlerWrap] at h

/-- Binding returns ok exactly when both steps returned ok. -/
theorem PyResult.bind_ok {α β : Type} {r : PyResult α} {f : α → PyResult β} {b : β}
    (h : r.bind f = PyResult.ok b) : ∃ a, r = PyResult.ok a ∧ f a = PyResult.ok b := by
  cases r with
  | ok a => exact ⟨a, rfl, h⟩
  | httpExc s m => simp [PyResult.bind] at h
  | exc m => simp [PyResult.bind] at h

/-- Characterization of a successful update response shaping. -/
theorem updateResponse_ok {body : List (String × String)} {data payload : Json}
    (h : updateResponse body data = PyResult.ok payload) :
    ∃ fs cfs : List (String × Json),
      data = Json.obj fs ∧
      (fs.lookup "contact").getD (Json.obj []) = Json.obj cfs ∧
      payload = Json.obj
        [("success", Json.bool true),
         ("contact_id", (cfs.lookup "id").getD Json.null),
         ("updated_fields", Json.arr (body.map fun kv => Json.str kv.1)),
         ("raw_response", Json.obj cfs)] := by
  cases data with
  | obj fs =>
    rw [updateResponse] at h
    rcases hv : (fs.lookup "contact").getD (Json.obj []) with _ | b | n | s | xs | cfs
    all_goals rw [hv] at h
    all_goals simp at h
    exact ⟨fs, cfs, rfl, hv, h.symm⟩
  | null => simp [updateResponse] at h
  | bool b => simp [updateResponse] at h
  | num n => simp [updateResponse] at h
  | str s => simp [updateResponse] at h
  | arr xs => simp [updateResponse] at h

/-- Characterization of a successful company resolution. -/
theorem companyOf_ok {cfs : List (String × Json)} {comp : Json}
    (h : companyOf cfs = PyResult.ok comp) :
    comp = if jsonTruthy ((cfs.lookup "organization_name").getD Json.null)
           then (cfs.lookup "organization_name").getD Json.null
           else jgetD ((cfs.lookup "account").getD (Json.obj [])) "name" Json.null := by
  rw [companyOf] at h
  by_cases ht : jsonTruthy ((cfs.lookup "organization_name").getD Json.null)
  · rw [if_pos ht] at h
    rw [if_pos ht]
    simp at h
    exact h.symm
  · rw [if_neg ht] at h
    rw [if_neg ht]
    rcases hv : (cfs.lookup "account").getD (Json.obj []) with _ | b | n | s | xs | afs
    all_goals rw [hv] at h
    all_goals simp at h
    simp [jgetD]
    exact h.symm

/-- Characterization of a successful create response shaping. -/
theorem createResponse_ok {data payload : Json}
    (h : createResponse data = PyResult.ok payload) :
    ∃ (fs cfs : List (String × Json)) (comp : Json),
      data = Json.obj fs ∧
      (fs.lookup "contact").getD (Json.obj []) = Json.obj cfs ∧
      companyOf cfs = PyResult.ok comp ∧
      payload = Json.obj
        [("success", Json.bool true),
         ("contact_id", (cfs.lookup "id").getD Json.null),
         ("name", (cfs.lookup "name").getD Json.null),
         ("email", (cfs.lookup "email").getD Json.null),
         ("title", (cfs.lookup "title").getD Json.null),
         ("company", comp),
         ("raw_response", Json.obj cfs)] := by
  cases data with
  | obj fs =>
    rw [createResponse] at h
    rcases hv : (fs.lookup "contact").getD (Json.obj []) with _ | b | n | s | xs | cfs
    all_goals rw [hv] at h
    all_goals simp at h
    cases hc : companyOf cfs with
    | ok comp =>
      rw [hc] at h
      simp [PyResult.bind] at h
      exact ⟨fs, cfs, comp, rfl, hv, hc, h.symm⟩
    | httpExc s m =>
      rw [hc] at h
      simp [PyResult.bind] at h
    | exc m =>
      rw [hc] at h
      simp [PyResult.bind] at h
  | null => simp [createResponse] at h
  | bool b => simp [createResponse] at h
  | num n => simp [createResponse] at h
  | str s => simp [createResponse] at h
  | arr xs => simp [createResponse] at h

/-- C1, counterexample: an update request whose only present optional field
is phone succeeds, but the success response's updated_fields is exactly
["direct_phone"] — not ["phone"] as the claim states. -/
theorem C1_counterexample :
    (update_contact ⟨"67890", none, none, some "555-0100", none⟩
        (RemoteOutcome.response ⟨200, "",
          Except.ok (Json.obj [("contact", Json.obj [("id", Json.str "67890")])])⟩)).2
      = PyResult.ok (Json.obj
          [("success", Json.bool true),
           ("contact_id", Json.str "67890"),
           ("updated_fields", Json.arr [Json.str "direct_phone"]),
           ("raw_response", Json.obj [("id", Json.str "67890")])]) ∧
    jlookup (Json.obj
          [("success", Json.bool true),
           ("contact_id", Json.str "67890"),
           ("updated_fields", Json.arr [Json.str "direct_phone"]),
           ("raw_response", Json.obj [("id", Json.str "67890")])]) "updated_fields"
      ≠ some (Json.arr [Json.str "phone"]) :=
  ⟨rfl, by simp [jlookup, List.lookup]⟩

/-- C1, amended: for every update-contact request whose only present
optional field is a non-empty phone, the success response's updated_fields
list equals exactly ["direct_phone"] — the outbound-body key after the
renaming, not the request field's original name. -/
theorem C1_amended_updated_fields (req : UpdateContactRequest) (o : RemoteOutcome)
    (payload : Json)
    (he : req.email = none) (ht : req.title = none) (hl : req.linkedin_url = none)
    (p : String) (hp : req.phone = some p) (hpne : p ≠ "")
    (hok : (update_contact req o).2 = PyResult.ok payload) :
    jlookup payload "updated_fields" = some (Json.arr [Json.str "direct_phone"]) := by
  have hbody : updateBody req = [("direct_phone", p)] := by
    simp [updateBody, qentry, he, ht, hl, hp, hpne]
  rw [update_contact, hbody] at hok
  simp at hok
  obtain ⟨a, ha, hresp⟩ := PyResult.bind_ok (handlerWrap_ok hok)
  obtain ⟨fs, cfs, hdata, hcon, hpayload⟩ := updateResponse_ok hresp
  rw [hpayload]
  simp [jlookup, List.lookup]

/-- C1, witness for the amended theorem. -/
theorem C1_amended_updated_fields_witness :
    jlookup (Json.obj
      [("success", Json.bool true),
       ("contact_id", Json.str "67890"),
       ("updated_fields", Json.arr [Json.str "direct_phone"]),
       ("raw_response", Json.obj [("id", Json.str "67890")])]) "updated_fields"
      = some (Json.arr [Json.str "direct_phone"]) :=
  C1_amended_updated_fields ⟨"67890", none, none, some "555-0100", none⟩
    (RemoteOutcome.response ⟨200, "",
      Except.ok (Json.obj [("contact", Json.obj [("id", Json.str "67890")])])⟩)
    _ rfl rfl rfl "555-0100" rfl (by decide) rfl

/-- C2, counterexample: a create request whose email is the empty string is
not rejected before the outbound call — the call is made (with the empty
email dropped from the parameters) and the operation succeeds. -/
theorem C2_counterexample :
    create_contact ⟨"", some "John", some "", some "", some "", some ""⟩
        (RemoteOutcome.response ⟨200, "",
          Except.ok (Json.obj [("contact", Json.obj [("id", Json.str "1")])])⟩)
      = ([⟨Method.POST, "/contacts", [("first_name", "John")], []⟩],
         PyResult.ok (Json.obj
           [("success", Json.bool true),
            ("contact_id", Json.str "1"),
            ("name", Json.null),
            ("email", Json.null),
            ("title", Json.null),
            ("company", Json.null),
            ("raw_response", Json.obj [("id", Json.str "1")])])) ∧
    (create_contact ⟨"", some "John", some "", some "", some "", some ""⟩
        (RemoteOutcome.response ⟨200, "",
          Except.ok (Json.obj [("contact", Json.obj [("id", Json.str "1")])])⟩)).1 ≠ [] :=
  ⟨rfl, by simp [create_contact]⟩

/-- C2, amended: the schema only requires the email field to be present, so
an empty-string email passes validation; the create operation then still
attempts its outbound call, and the empty email is dropped from the outbound
query parameters rather than rejected. -/
theorem C2_amended_empty_email_calls (req : CreateContactRequest) (o : RemoteOutcome)
    (h : req.email = "") :
    (create_contact req o).1 ≠ [] ∧
      ∀ c ∈ (create_contact req o).1, "email" ∉ c.queryParams.map Prod.fst := by
  constructor
  · simp [create_contact]
  · intro c hc
    simp [create_contact] at hc
    rw [hc]
    intro hmem
    rcases List.mem_map.1 hmem with ⟨p, hp, hpe⟩
    simp only [createQueryParams, List.mem_append] at hp
    rcases hp with ((((h1 | h2) | h3) | h4) | h5) | h6
    · rw [h] at h1
      simp [qentry] at h1
    · rw [mem_qentry_key h2] at hpe
      exact absurd hpe (by decide)
    · rw [mem_qentry_key h3] at hpe
      exact absurd hpe (by decide)
    · rw [mem_qentry_key h4] at hpe
      exact absurd hpe (by decide)
    · rw [mem_qentry_key h5] at hpe
      exact absurd hpe (by decide)
    · rw [mem_qentry_key h6] at hpe
      exact absurd hpe (by decide)

/-- C2, witness for the amended theorem. -/
theorem C2_amended_empty_email_calls_witness :
    (create_contact ⟨"", some "John", some "", some "", some "", some ""⟩
        (RemoteOutcome.exn "down")).1 ≠ [] ∧
      ∀ c ∈ (create_contact ⟨"", some "John", some "", some "", some "", some ""⟩
        (RemoteOutcome.exn "down")).1, "email" ∉ c.queryParams.map Prod.fst :=
  C2_amended_empty_email_calls ⟨"", some "John", some "", some "", some "", some ""⟩
    (RemoteOutcome.exn "down") rfl

/-- C3: a non-2xx remote response on create, or on update with a non-empty
body, surfaces as a failure carrying exactly the remote's status code with
the remote body embedded in the message; in particular a remote 422 whose
body is the invalid-email error object yields a 422 whose message contains
"invalid email". -/
theorem C3_remote_error_propagation :
    (∀ (req : CreateContactRequest) (r : RemoteResponse),
        ¬(200 ≤ r.status ∧ r.status < 300) →
        (create_contact req (RemoteOutcome.response r)).2
          = PyResult.httpExc r.status ("Apollo API error: " ++ r.text)) ∧
    (∀ (req : UpdateContactRequest) (r : RemoteResponse),
        updateBody req ≠ [] →
        ¬(200 ≤ r.status ∧ r.status < 300) →
        (update_contact req (RemoteOutcome.response r)).2
          = PyResult.httpExc r.status ("Apollo API error: " ++ r.text)) ∧
    (∀ (req : CreateContactRequest) (jb : Except String Json),
        (create_contact req (RemoteOutcome.response
            ⟨422, "\x7b\"error\": \"invalid email\"\x7d", jb⟩)).2
          = PyResult.httpExc 422
              ("Apollo API error: \x7b\"error\": \"invalid email\"\x7d") ∧
        hasSubstr ("Apollo API error: \x7b\"error\": \"invalid email\"\x7d")
          "invalid email") := by
  refine ⟨?_, ?_, ?_⟩
  · intro req r hne
    simp [create_contact, make_apollo_request, hne, PyResult.bind, handlerWrap]
  · intro req r hb hne
    have hempty : (updateBody req).isEmpty = false := by
      cases hbody : updateBody req with
      | nil => exact absurd hbody hb
      | cons a l => rfl
    simp [update_contact, hempty, make_apollo_request, hne, PyResult.bind, handlerWrap]
  · intro req jb
    constructor
    · have hne : ¬(200 ≤ 422 ∧ 422 < 300) := by decide
      simp [create_contact, make_apollo_request, hne, PyResult.bind, handlerWrap]
    · exact ⟨"Apollo API error: \x7b\"error\": \"", "\"\x7d", rfl⟩

/-- C3, witness. -/
theorem C3_remote_error_propagation_witness :
    (create_contact ⟨"a@b.c", none, none, none, none, none⟩
        (RemoteOutcome.response ⟨422, "\x7b\"error\": \"invalid email\"\x7d",
          Except.ok (Json.obj [("error", Json.str "invalid email")])⟩)).2
      = PyResult.httpExc 422 ("Apollo API error: \x7b\"error\": \"invalid email\"\x7d") :=
  C3_remote_error_propagation.1 ⟨"a@b.c", none, none, none, none, none⟩
    ⟨422, "\x7b\"error\": \"invalid email\"\x7d",
      Except.ok (Json.obj [("error", Json.str "invalid email")])⟩ (by decide)

/-- C4: an update request with all four optional fields absent is rejected
with a 400 ("No fields to update") and no outbound call, whatever the
remote would have answered. -/
theorem C4_update_all_absent (req : UpdateContactRequest) (o : RemoteOutcome)
    (he : req.email = none) (ht : req.title = none) (hp : req.phone = none)
    (hl : req.linkedin_url = none) :
    update_contact req o = ([], PyResult.httpExc 400 "No fields to update") := by
  simp [update_contact, updateBody, qentry, he, ht, hp, hl]

/-- C4, witness. -/
theorem C4_update_all_absent_witness :
    update_contact ⟨"abc123", none, none, none, none⟩ (RemoteOutcome.exn "down")
      = ([], PyResult.httpExc 400 "No fields to update") :=
  C4_update_all_absent ⟨"abc123", none, none, none, none⟩ (RemoteOutcome.exn "down")
    rfl rfl rfl rfl

/-- C5, counterexample: on a remote payload with keys beyond "contact", the
response's raw_response equals the nested contact object, not the full
remote payload as the claim states. -/
theorem C5_counterexample :
    (create_contact ⟨"j@x.com", none, none, none, none, none⟩
        (RemoteOutcome.response ⟨200, "",
          Except.ok (Json.obj
            [("contact", Json.obj [("id", Json.str "123")]),
             ("pagination", Json.obj [("page", Json.num 1)])])⟩)).2
      = PyResult.ok (Json.obj
          [("success", Json.bool true), ("contact_id", Json.str "123"),
           ("name", Json.null), ("email", Json.null), ("title", Json.null),
           ("company", Json.null),
           ("raw_response", Json.obj [("id", Json.str "123")])]) ∧
    jlookup (Json.obj
          [("success", Json.bool true), ("contact_id", Json.str "123"),
           ("name", Json.null), ("email", Json.null), ("title", Json.null),
           ("company", Json.null),
           ("raw_response", Json.obj [("id", Json.str "123")])]) "raw_response"
      ≠ some (Json.obj
          [("contact", Json.obj [("id", Json.str "123")]),
           ("pagination", Json.obj [("page", Json.num 1)])]) :=
  ⟨rfl, by simp [jlookup, List.lookup]⟩

/-- C5, amended: for every successful create-contact operation, raw_response
is the contact object extracted from the remote payload — the payload's
"contact" value, or an empty mapping when that key is absent — passed
through unmodified, rather than the full remote payload. -/
theorem C5_amended_raw_is_contact (req : CreateContactRequest) (o : RemoteOutcome)
    (data payload : Json)
    (hdata : make_apollo_request o = PyResult.ok data)
    (hok : (create_contact req o).2 = PyResult.ok payload) :
    jlookup payload "raw_response" = some (jgetD data "contact" (Json.obj [])) := by
  rw [create_contact] at hok
  simp at hok
  obtain ⟨a, ha, hresp⟩ := PyResult.bind_ok (handlerWrap_ok hok)
  rw [hdata] at ha
  have hda : data = a := PyResult.ok.inj ha
  subst hda
  obtain ⟨fs, cfs, comp, hdfs, hcon, hcomp, hpayload⟩ := createResponse_ok hresp
  subst hdfs
  rw [hpayload]
  simp [jlookup, List.lookup, jgetD, hcon]

/-- C5, witness for the amended theorem. -/
theorem C5_amended_raw_is_contact_witness :
    jlookup (Json.obj
          [("success", Json.bool true), ("contact_id", Json.str "123"),
           ("name", Json.null), ("email", Json.null), ("title", Json.null),
           ("company", Json.null),
           ("raw_response", Json.obj [("id", Json.str "123")])]) "raw_response"
      = some (jgetD (Json.obj
          [("contact", Json.obj [("id", Json.str "123")]),
           ("extra", Json.bool true)]) "contact" (Json.obj [])) :=
  C5_amended_raw_is_contact ⟨"j@x.com", none, none, none, none, none⟩
    (RemoteOutcome.response ⟨200, "",
      Except.ok (Json.obj
        [("contact", Json.obj [("id", Json.str "123")]),
         ("extra", Json.bool true)])⟩)
    (Json.obj
      [("contact", Json.obj [("id", Json.str "123")]),
       ("extra", Json.bool true)])
    (Json.obj
      [("success", Json.bool true), ("contact_id", Json.str "123"),
       ("name", Json.null), ("email", Json.null), ("title", Json.null),
       ("company", Json.null),
       ("raw_response", Json.obj [("id", Json.str "123")])])
    rfl rfl

/-- C6, counterexample: with organization_name present but equal to the
empty string, company is resolved from the nested account name ("Acme"),
not from the present direct field — refuting the claim's rule that the
account fallback applies only when the direct field is absent. -/
theorem C6_counterexample :
    (create_contact ⟨"z@y.com", none, none, none, none, none⟩
        (RemoteOutcome.response ⟨200, "",
          Except.ok (Json.obj [("contact", Json.obj
            [("id", Json.str "9"),
             ("organization_name", Json.str ""),
             ("account", Json.obj [("name", Json.str "Acme")])])])⟩)).2
      = PyResult.ok (Json.obj
          [("success", Json.bool true), ("contact_id", Json.str "9"),
           ("name", Json.null), ("email", Json.null), ("title", Json.null),
           ("company", Json.str "Acme"),
           ("raw_response", Json.obj
             [("id", Json.str "9"),
              ("organization_name", Json.str ""),
              ("account", Json.obj [("name", Json.str "Acme")])])]) ∧
    jlookup (Json.obj
      [("id", Json.str "9"),
       ("organization_name", Json.str ""),
       ("account", Json.obj [("name", Json.str "Acme")])]) "organization_name"
      = some (Json.str "") ∧
    jlookup (Json.obj
          [("success", Json.bool true), ("contact_id", Json.str "9"),
           ("name", Json.null), ("email", Json.null), ("title", Json.null),
           ("company", Json.str "Acme"),
           ("raw_response", Json.obj
             [("id", Json.str "9"),
              ("organization_name", Json.str ""),
              ("account", Json.obj [("name", Json.str "Acme")])])]) "company"
      ≠ some (Json.str "") :=
  ⟨rfl, rfl, by simp [jlookup, List.lookup]⟩

/-- C6, amended: the worked example holds as given, and in general a
successful create response extracts id, name, email and title from the
nested contact object, and company from the direct organization-name field
when that is truthy (present, non-null and non-empty), otherwise from the
nested account's name. -/
theorem C6_amended_extraction :
    ((create_contact ⟨"j@x.com", some "", some "", some "", some "", some ""⟩
        (RemoteOutcome.response ⟨200, "",
          Except.ok (Json.obj [("contact", Json.obj
            [("id", Json.str "123"), ("name", Json.str "Jane Doe"),
             ("email", Json.str "j@x.com")])])⟩)).2
      = PyResult.ok (Json.obj
          [("success", Json.bool true), ("contact_id", Json.str "123"),
           ("name", Json.str "Jane Doe"), ("email", Json.str "j@x.com"),
           ("title", Json.null), ("company", Json.null),
           ("raw_response", Json.obj
             [("id", Json.str "123"), ("name", Json.str "Jane Doe"),
              ("email", Json.str "j@x.com")])])) ∧
    (∀ (req : CreateContactRequest) (o : RemoteOutcome) (data payload : Json),
      make_apollo_request o = PyResult.ok data →
      (create_contact req o).2 = PyResult.ok payload →
      (jlookup payload "success" = some (Json.bool true) ∧
       jlookup payload "contact_id"
         = some (jgetD (jgetD data "contact" (Json.obj [])) "id" Json.null) ∧
       jlookup payload "name"
         = some (jgetD (jgetD data "contact" (Json.obj [])) "name" Json.null) ∧
       jlookup payload "email"
         = some (jgetD (jgetD data "contact" (Json.obj [])) "email" Json.null) ∧
       jlookup payload "title"
         = some (jgetD (jgetD data "contact" (Json.obj [])) "title" Json.null) ∧
       jlookup payload "company"
         = some (if jsonTruthy (jgetD (jgetD data "contact" (Json.obj []))
                     "organization_name" Json.null)
                 then jgetD (jgetD data "contact" (Json.obj []))
                     "organization_name" Json.null
                 else jgetD (jgetD (jgetD data "contact" (Json.obj []))
                     "account" (Json.obj [])) "name" Json.null))) := by
  constructor
  · rfl
  · intro req o data payload hdata hok
    rw [create_contact] at hok
    simp at hok
    obtain ⟨a, ha, hresp⟩ := PyResult.bind_ok (handlerWrap_ok hok)
    rw [hdata] at ha
    have hda : data = a := PyResult.ok.inj ha
    subst hda
    obtain ⟨fs, cfs, comp, hdfs, hcon, hcomp, hpayload⟩ := createResponse_ok hresp
    subst hdfs
    rw [hpayload]
    have hcompval := companyOf_ok hcomp
    refine ⟨?_, ?_, ?_, ?_, ?_, ?_⟩
    · simp [jlookup, List.lookup]
    · simp [jlookup, List.lookup, jgetD, hcon]
    · simp [jlookup, List.lookup, jgetD, hcon]
    · simp [jlookup, List.lookup, jgetD, hcon]
    · simp [jlookup, List.lookup, jgetD, hcon]
    · simp [jlookup, List.lookup, jgetD, hcon, hcompval]

/-- C6, witness for the amended theorem's general part. -/
theorem C6_amended_extraction_witness :
    jlookup (Json.obj
      [("success", Json.bool true), ("contact_id", Json.str "7"),
       ("name", Json.null), ("email", Json.null), ("title", Json.null),
       ("company", Json.str "Globex"),
       ("raw_response", Json.obj
         [("id", Json.str "7"), ("organization_name", Json.str "Globex")])]) "success"
      = some (Json.bool true) ∧
    jlookup (Json.obj
      [("success", Json.bool true), ("contact_id", Json.str "7"),
       ("name", Json.null), ("email", Json.null), ("title", Json.null),
       ("company", Json.str "Globex"),
       ("raw_response", Json.obj
         [("id", Json.str "7"), ("organization_name", Json.str "Globex")])]) "contact_id"
      = some (jgetD (jgetD (Json.obj [("contact", Json.obj
          [("id", Json.str "7"), ("organization_name", Json.str "Globex")])])
          "contact" (Json.obj [])) "id" Json.null) ∧
    jlookup (Json.obj
      [("success", Json.bool true), ("contact_id", Json.str "7"),
       ("name", Json.null), ("email", Json.null), ("title", Json.null),
       ("company", Json.str "Globex"),
       ("raw_response", Json.obj
         [("id", Json.str "7"), ("organization_name", Json.str "Globex")])]) "name"
      = some (jgetD (jgetD (Json.obj [("contact", Json.obj
          [("id", Json.str "7"), ("organization_name", Json.str "Globex")])])
          "contact" (Json.obj [])) "name" Json.null) ∧
    jlookup (Json.obj
      [("success", Json.bool true), ("contact_id", Json.str "7"),
       ("name", Json.null), ("email", Json.null), ("title", Json.null),
       ("company", Json.str "Globex"),
       ("raw_response", Json.obj
         [("id", Json.str "7"), ("organization_name", Json.str "Globex")])]) "email"
      = some (jgetD (jgetD (Json.obj [("contact", Json.obj
          [("id", Json.str "7"), ("organization_name", Json.str "Globex")])])
          "contact" (Json.obj [])) "email" Json.null) ∧
    jlookup (Json.obj
      [("success", Json.bool true), ("contact_id", Json.str "7"),
       ("name", Json.null), ("email", Json.null), ("title", Json.null),
       ("company", Json.str "Globex"),
       ("raw_response", Json.obj
         [("id", Json.str "7"), ("organization_name", Json.str "Globex")])]) "title"
      = some (jgetD (jgetD (Json.obj [("contact", Json.obj
          [("id", Json.str "7"), ("organization_name", Json.str "Globex")])])
          "contact" (Json.obj [])) "title" Json.null) ∧
    jlookup (Json.obj
      [("success", Json.bool true), ("contact_id", Json.str "7"),
       ("name", Json.null), ("email", Json.null), ("title", Json.null),
       ("company", Json.str "Globex"),
       ("raw_response", Json.obj
         [("id", Json.str "7"), ("organization_name", Json.str "Globex")])]) "company"
      = some (if jsonTruthy (jgetD (jgetD (Json.obj [("contact", Json.obj
              [("id", Json.str "7"), ("organization_name", Json.str "Globex")])])
              "contact" (Json.obj [])) "organization_name" Json.null)
              then jgetD (jgetD (Json.obj [("contact", Json.obj
                [("id", Json.str "7"), ("organization_name", Json.str "Globex")])])
                "contact" (Json.obj [])) "organization_name" Json.null
              else jgetD (jgetD (jgetD (Json.obj [("contact", Json.obj
                [("id", Json.str "7"), ("organization_name", Json.str "Globex")])])
                "contact" (Json.obj [])) "account" (Json.obj [])) "name" Json.null) :=
  C6_amended_extraction.2 ⟨"w@x.y", none, none, none, none, none⟩
    (RemoteOutcome.response ⟨200, "",
      Except.ok (Json.obj [("contact", Json.obj
        [("id", Json.str "7"), ("organization_name", Json.str "Globex")])])⟩)
    (Json.obj [("contact", Json.obj
      [("id", Json.str "7"), ("organization_name", Json.str "Globex")])])
    (Json.obj
      [("success", Json.bool true), ("contact_id", Json.str "7"),
       ("name", Json.null), ("email", Json.null), ("title", Json.null),
       ("company", Json.str "Globex"),
       ("raw_response", Json.obj
         [("id", Json.str "7"), ("organization_name", Json.str "Globex")])])
    rfl rfl

/-- C7: the status check never yields an HTTP failure: whatever the outcome
of the outbound health call (200 response, non-200 response, malformed or
non-object body, or a raised exception such as a timeout), it returns an ok
payload; and a raised exception is folded into the error-status shape. -/
theorem C7_status_never_raises :
    (∀ o : RemoteOutcome, ∃ payload : Json, (check_status o).2 = PyResult.ok payload) ∧
    (∀ m : String, (check_status (RemoteOutcome.exn m)).2 = PyResult.ok (statusError m)) := by
  constructor
  · intro o
    cases o with
    | exn m => exact ⟨statusError m, rfl⟩
    | response r =>
      by_cases h : r.status = 200
      · cases hj : r.jsonBody with
        | error m => exact ⟨statusError m, by simp [check_status, h, hj]⟩
        | ok j =>
          cases j with
          | obj fs =>
            exact ⟨Json.obj
              [("apollo_status", Json.str "connected"),
               ("status_code", Json.num (200 : Int)),
               ("is_logged_in", (fs.lookup "is_logged_in").getD (Json.bool false))],
              by simp [check_status, h, hj]⟩
          | null => exact ⟨statusError "AttributeError", by simp [check_status, h, hj]⟩
          | bool b => exact ⟨statusError "AttributeError", by simp [check_status, h, hj]⟩
          | num n => exact ⟨statusError "AttributeError", by simp [check_status, h, hj]⟩
          | str s => exact ⟨statusError "AttributeError", by simp [check_status, h, hj]⟩
          | arr xs => exact ⟨statusError "AttributeError", by simp [check_status, h, hj]⟩
      · exact ⟨Json.obj
          [("apollo_status", Json.str "error"),
           ("status_code", Json.num (r.status : Int)),
           ("is_logged_in", Json.bool false)],
          by simp [check_status, h]⟩
  · intro m
    rfl

/-- C8: a webhook request whose action is missing or not one of the three
known actions returns the descriptive unknown-action payload as a normal
(non-error) result, with no outbound call made. -/
theorem C8_unknown_action (data : List (String × Json)) (o : RemoteOutcome)
    (h1 : (data.lookup "action").getD Json.null ≠ Json.str "create_contact")
    (h2 : (data.lookup "action").getD Json.null ≠ Json.str "update_contact")
    (h3 : (data.lookup "action").getD Json.null ≠ Json.str "status") :
    n8n_webhook data o = ([], PyResult.ok (Json.obj
      [("error", Json.str "Unknown action"),
       ("available", Json.arr
         [Json.str "create_contact", Json.str "update_contact", Json.str "status"])])) := by
  rw [n8n_webhook]
  simp only [if_neg h1, if_neg h2, if_neg h3]

/-- C8, witness. -/
theorem C8_unknown_action_witness :
    n8n_webhook [("action", Json.str "frobnicate")] (RemoteOutcome.exn "down")
      = ([], PyResult.ok (Json.obj
        [("error", Json.str "Unknown action"),
         ("available", Json.arr
           [Json.str "create_contact", Json.str "update_contact", Json.str "status"])])) :=
  C8_unknown_action [("action", Json.str "frobnicate")] (RemoteOutcome.exn "down")
    (by simp [List.lookup]) (by simp [List.lookup]) (by simp [List.lookup])

/-- C9: empty-string optional fields act exactly like absent ones in update
— normalizing every empty-string field to an absent one leaves the whole
operation unchanged (first conjunct), and in particular a request with all
four fields equal to the empty string is rejected with a 400 and no
outbound call, exactly like one with all four absent (second conjunct). -/
theorem C9_empty_equals_absent :
    (∀ (req : UpdateContactRequest) (o : RemoteOutcome),
        update_contact req o = update_contact (normUpdate req) o) ∧
    (∀ (cid : String) (o : RemoteOutcome),
        update_contact ⟨cid, some "", some "", some "", some ""⟩ o
          = ([], PyResult.httpExc 400 "No fields to update")) := by
  constructor
  · intro req o
    have h : updateBody (normUpdate req) = updateBody req := by
      simp [updateBody, normUpdate, qentry_norm1]
    simp only [update_contact, h]
    rfl
  · intro cid o
    simp [update_contact, updateBody, qentry]

/-- C10: when the remote create call succeeds with a JSON object lacking the
contact key, create-contact still returns success, with contact_id, name,
email, title and company all null and an empty raw_response mapping. -/
theorem C10_missing_contact_key (req : CreateContactRequest) (s : Nat) (t : String)
    (fs : List (String × Json)) (h2 : 200 ≤ s) (h3 : s < 300)
    (hc : fs.lookup "contact" = none) :
    (create_contact req (RemoteOutcome.response ⟨s, t, Except.ok (Json.obj fs)⟩)).2
      = PyResult.ok (Json.obj
          [("success", Json.bool true), ("contact_id", Json.null), ("name", Json.null),
           ("email", Json.null), ("title", Json.null), ("company", Json.null),
           ("raw_response", Json.obj [])]) := by
  simp [create_contact, make_apollo_request, h2, h3, PyResult.bind, createResponse, hc,
        companyOf, jsonTruthy, handlerWrap, List.lookup]

/-- C10, witness. -/
theorem C10_missing_contact_key_witness :
    (create_contact ⟨"a@b.c", none, none, none, none, none⟩
        (RemoteOutcome.response ⟨201, "",
          Except.ok (Json.obj [("ok", Json.bool true)])⟩)).2
      = PyResult.ok (Json.obj
          [("success", Json.bool true), ("contact_id", Json.null), ("name", Json.null),
           ("email", Json.null), ("title", Json.null), ("company", Json.null),
           ("raw_response", Json.obj [])]) :=
  C10_missing_contact_key ⟨"a@b.c", none, none, none, none, none⟩ 201 ""
    [("ok", Json.bool true)] (by decide) (by decide) rfl
